import Mathlib

/-!
Shallow embedding of the `stderrlog` crate (`src/lib.rs`): a stderr logging
back-end with a verbosity-count threshold, a quiet flag, optional
second-granularity timestamps, and a module allow-list filter backed by a
sorted set (`BTreeSet<String>`) queried with a bounded range search.

Machine-independent modelling decisions:
* `LogLevel` / `LogLevelFilter` come from the external `log` facade; they are
  ordered enumerations and `level <= filter` compares their numeric values.
* Rust's `Ord for String` (used by `BTreeSet<String>`) is byte-lexicographic
  over UTF-8, which coincides with codepoint-lexicographic order on valid
  UTF-8; it is embedded as the structural function `bytesLe` over `List Char`.
* `str::starts_with` is a byte-prefix test, which on valid UTF-8 coincides
  with the character-prefix test; it is embedded via `List.isPrefixOf`.
* The `BTreeSet<String>` is represented by the list of its members
  (order and duplication irrelevant to every operation modelled here);
  `range((Unbounded, Included(bound))).next_back()` is the greatest member
  that is `<=` the bound, embedded as `maxStr?` of the filtered members.
* The per-thread `LineWriter` is I/O; `log` is modelled as returning the list
  of complete lines the call writes to stderr (empty list = nothing written,
  and no error is ever surfaced: the function is total).
* `time::now().rfc3339()` is an effect; the rendered timestamp string is
  passed to `log` as the parameter `now`.
-/

namespace Stderrlog

/-- Severity of a single message, from the `log` facade
(`LogLevel`: Error = 1 .. Trace = 5). -/
inductive LogLevel
  | Error
  | Warn
  | Info
  | Debug
  | Trace
  deriving DecidableEq, Repr

/-- Threshold filter, from the `log` facade
(`LogLevelFilter`: Off = 0 .. Trace = 5). -/
inductive LogLevelFilter
  | Off
  | Error
  | Warn
  | Info
  | Debug
  | Trace
  deriving DecidableEq, Repr

/-- Numeric value of a `LogLevel`, as in the `log` crate. -/
def LogLevel.toNat : LogLevel → Nat
  | .Error => 1
  | .Warn => 2
  | .Info => 3
  | .Debug => 4
  | .Trace => 5

/-- Numeric value of a `LogLevelFilter`, as in the `log` crate. -/
def LogLevelFilter.toNat : LogLevelFilter → Nat
  | .Off => 0
  | .Error => 1
  | .Warn => 2
  | .Info => 3
  | .Debug => 4
  | .Trace => 5

/-- Display name of a level, as printed by `record.level()`. -/
def LogLevel.name : LogLevel → String
  | .Error => "ERROR"
  | .Warn => "WARN"
  | .Info => "INFO"
  | .Debug => "DEBUG"
  | .Trace => "TRACE"

/-- State of the timestampping in the logger (`enum Timestamp`). -/
inductive Timestamp
  | Off
  | Second
  deriving DecidableEq, Repr

/-- Byte-lexicographic `<=` on strings as lists of characters: the order of
Rust's `Ord for String`, used by `BTreeSet<String>` (UTF-8 byte order equals
codepoint order on valid UTF-8). -/
def bytesLe : List Char → List Char → Bool
  | [], _ => true
  | _ :: _, [] => false
  | c :: cs, d :: ds => if c = d then bytesLe cs ds else decide (c < d)

/-- Rust `String` order `a <= b`. -/
def strLe (a b : String) : Bool :=
  bytesLe a.toList b.toList

/-- Byte-prefix test on strings as lists of characters (on valid UTF-8 the
byte-prefix and character-prefix tests coincide). -/
def bytesPrefix : List Char → List Char → Bool
  | [], _ => true
  | _ :: _, [] => false
  | c :: cs, d :: ds => c = d && bytesPrefix cs ds

/-- Rust `str::starts_with`: `s` starts with the literal string `pre`. -/
def starts_with (s pre : String) : Bool :=
  bytesPrefix pre.toList s.toList

/-- Greatest element of the list under the Rust string order: the result of
`next_back()` on a `BTreeSet` iterator over these members. -/
def maxStr? (l : List String) : Option String :=
  l.foldl
    (fun acc m =>
      match acc with
      | none => some m
      | some best => some (if strLe best m then m else best))
    none

/-- The logger configuration (`struct StdErrLog`); the per-thread
`CachedThreadLocal` writer is I/O state and carries no configuration, so it
is not represented. -/
structure StdErrLog where
  verbosity : LogLevelFilter
  quiet : Bool
  timestamp : Timestamp
  modules : List String
  deriving DecidableEq, Repr

/-- `impl Clone for StdErrLog`: copies the configuration; the clone starts
with a fresh (empty) writer cache. -/
def StdErrLog.clone (self : StdErrLog) : StdErrLog :=
  { verbosity := self.verbosity
    quiet := self.quiet
    timestamp := self.timestamp
    modules := self.modules }

/-- `StdErrLog::new()`: default configuration. -/
def StdErrLog.new : StdErrLog :=
  { verbosity := .Error
    quiet := false
    timestamp := .Off
    modules := [] }

/-- The `match verbosity { .. }` table inside `StdErrLog::verbosity`. -/
def verbosityToFilter : Nat → LogLevelFilter
  | 0 => .Error
  | 1 => .Warn
  | 2 => .Info
  | 3 => .Debug
  | _ => .Trace

/-- `StdErrLog::verbosity(usize)` setter (named `set_verbosity` because the
field already carries the source name). -/
def StdErrLog.set_verbosity (self : StdErrLog) (verbosity : Nat) : StdErrLog :=
  { self with verbosity := verbosityToFilter verbosity }

/-- `StdErrLog::quiet(bool)` setter. -/
def StdErrLog.set_quiet (self : StdErrLog) (quiet : Bool) : StdErrLog :=
  { self with quiet := quiet }

/-- `StdErrLog::timestamp(Timestamp)` setter. -/
def StdErrLog.set_timestamp (self : StdErrLog) (timestamp : Timestamp) : StdErrLog :=
  { self with timestamp := timestamp }

/-- `StdErrLog::module(&str)`: `BTreeSet::insert` (duplicate insert is a
no-op). -/
def StdErrLog.register_module (self : StdErrLog) (m : String) : StdErrLog :=
  { self with modules := if m ∈ self.modules then self.modules else m :: self.modules }

/-- `StdErrLog::modules(iter)`: `BTreeSet::extend`. -/
def StdErrLog.register_modules (self : StdErrLog) (ms : List String) : StdErrLog :=
  ms.foldl StdErrLog.register_module self

/-- `StdErrLog::log_level_filter()`. -/
def StdErrLog.log_level_filter (self : StdErrLog) : LogLevelFilter :=
  if self.quiet then .Off else self.verbosity

/-- `Log::enabled`: `metadata.level() <= self.log_level_filter()`, comparing
numeric values as the `log` crate does. -/
def StdErrLog.enabled (self : StdErrLog) (level : LogLevel) : Bool :=
  level.toNat ≤ self.log_level_filter.toNat

/-- `StdErrLog::includes_module`: empty set accepts everything; otherwise
take the last set member at or before `module_path`
(`range((Unbounded, Included(module_path))).next_back()`) and test whether
`module_path` starts with it. -/
def StdErrLog.includes_module (self : StdErrLog) (module_path : String) : Bool :=
  if self.modules.isEmpty then
    true
  else
    match maxStr? (self.modules.filter (fun m => strLe m module_path)) with
    | some prev => starts_with module_path prev
    | none => false

/-- `Log::log`: returns the complete lines written to stderr by this call
(each without its trailing newline). An early return writes nothing; no
error is ever raised (the function is total into `List String`). `now` is
the rendered `time::now().rfc3339()` timestamp. -/
def StdErrLog.log (self : StdErrLog) (now : String) (level : LogLevel)
    (module_path : String) (args : String) : List String :=
  if ¬ self.enabled level then
    []
  else if self.includes_module module_path then
    [(match self.timestamp with
      | .Second => now ++ " - "
      | .Off => "") ++ level.name ++ " - " ++ args]
  else
    []

/-- Error from the `log` facade when a logger is already registered. -/
inductive SetLoggerError
  | AlreadyInitialized
  deriving DecidableEq, Repr

/-- Process-wide state owned by the `log` facade: the registered logger (if
any) and the global maximum-severity gate. -/
structure GlobalLoggerState where
  logger : Option StdErrLog
  max_log_level : LogLevelFilter
  deriving DecidableEq, Repr

/-- Modelled from the spec: `log::set_logger`, the external facade's global
registration point, is not part of this repository. Per the spec it fails
with the already-initialized error — leaving the registered logger and the
gate untouched — when a logger is already registered; otherwise it runs the
factory, which sets the global maximum-severity gate and yields the logger
to install. The factory's two effects appear here as the `max_level` and
`logger` arguments. -/
def set_logger (st : GlobalLoggerState) (max_level : LogLevelFilter)
    (logger : StdErrLog) : GlobalLoggerState × Except SetLoggerError Unit :=
  match st.logger with
  | some _ => (st, .error .AlreadyInitialized)
  | none => ({ logger := some logger, max_log_level := max_level }, .ok ())

/-- `StdErrLog::init()`: register a clone of this configuration and set the
facade's gate to `log_level_filter()`. -/
def StdErrLog.init (self : StdErrLog) (st : GlobalLoggerState) :
    GlobalLoggerState × Except SetLoggerError Unit :=
  set_logger st self.log_level_filter self.clone

/-- One chained builder call on the sink, for stating setter-order
independence. -/
inductive ConfigCall
  | verbosityCall (count : Nat)
  | quietCall (flag : Bool)
  | timestampCall (mode : Timestamp)
  | moduleCall (m : String)
  deriving DecidableEq, Repr

/-- Apply one builder call. -/
def applyCall (self : StdErrLog) : ConfigCall → StdErrLog
  | .verbosityCall n => self.set_verbosity n
  | .quietCall b => self.set_quiet b
  | .timestampCall t => self.set_timestamp t
  | .moduleCall m => self.register_module m

/-- Apply a chain of builder calls, left to right. -/
def applyCalls (self : StdErrLog) (calls : List ConfigCall) : StdErrLog :=
  calls.foldl applyCall self

/-! ## Helper lemmas -/

lemma strLe_empty_left (p : String) : strLe "" p = true :=
  rfl

lemma starts_with_empty (p : String) : starts_with p "" = true :=
  rfl

lemma includes_module_nil (cfg : StdErrLog) (x : String) (h : cfg.modules = []) :
    cfg.includes_module x = true := by
  simp [StdErrLog.includes_module, h]

lemma applyCalls_append (cfg : StdErrLog) (l₁ l₂ : List ConfigCall) :
    applyCalls cfg (l₁ ++ l₂) = applyCalls (applyCalls cfg l₁) l₂ := by
  simp [applyCalls, List.foldl_append]

lemma applyCalls_verbosity_of_no_verbosity (suf : List ConfigCall) :
    ∀ cfg : StdErrLog, (∀ m, ConfigCall.verbosityCall m ∉ suf) →
      (applyCalls cfg suf).verbosity = cfg.verbosity := by
  induction suf with
  | nil => intro cfg _; rfl
  | cons c cs ih =>
    intro cfg h
    have hc : ∀ m, ConfigCall.verbosityCall m ∉ cs :=
      fun m hm => h m (List.mem_cons_of_mem _ hm)
    have hstep : applyCalls cfg (c :: cs) = applyCalls (applyCall cfg c) cs := rfl
    rw [hstep, ih _ hc]
    cases c with
    | verbosityCall n => exact absurd (List.mem_cons_self _ _) (h n)
    | quietCall b => rfl
    | timestampCall t => rfl
    | moduleCall m => rfl

lemma verbosityToFilter_of_four_le (n : Nat) (h : 4 ≤ n) :
    verbosityToFilter n = .Trace := by
  obtain ⟨k, rfl⟩ := Nat.exists_eq_add_of_le' h
  rfl

/-! ## Claim theorems -/

/-- Claim C1: the spec expects `includes_module` on the set `{"a", "a::b"}` to
return true for `"a::z"` (matching the registered "a"), true for
`"a::b::z"`, and false for `"z"`. The code instead returns FALSE for
`"a::z"`: the range search only inspects the single greatest member at or
before the path, which is `"a::b"`, and `"a::z"` does not start with
`"a::b"`, so the registered prefix `"a"` is never consulted. This theorem
evaluates the code at all three inputs. -/
theorem includes_module_a_ab_behavior :
    ((StdErrLog.new.register_module "a").register_module "a::b").includes_module "a::z"
        = false
    ∧ ((StdErrLog.new.register_module "a").register_module "a::b").includes_module "a::b::z"
        = true
    ∧ ((StdErrLog.new.register_module "a").register_module "a::b").includes_module "z"
        = false := by
  decide

/-- Claim C2: with exactly `{"a::b"}` registered, `includes_module` returns
true on `"a::b"` and `"a::b::c"`, and false on `"a::c"` and `"a"`. -/
theorem includes_module_ab_cases :
    (StdErrLog.new.register_module "a::b").includes_module "a::b" = true
    ∧ (StdErrLog.new.register_module "a::b").includes_module "a::b::c" = true
    ∧ (StdErrLog.new.register_module "a::b").includes_module "a::c" = false
    ∧ (StdErrLog.new.register_module "a::b").includes_module "a" = false := by
  decide

/-- Claim C3: with an empty registered module set, `includes_module` returns
true for every module path. -/
theorem includes_module_empty_set (cfg : StdErrLog) (x : String)
    (h : cfg.modules = []) : cfg.includes_module x = true :=
  includes_module_nil cfg x h

/-- Witness for C3 at a concrete sink and path. -/
theorem includes_module_empty_set_witness :
    StdErrLog.new.modules = [] ∧ StdErrLog.new.includes_module "z" = true :=
  ⟨rfl, includes_module_empty_set StdErrLog.new "z" rfl⟩

/-- Claim C4: prefix matching is purely textual: with exactly `{"ab"}`
registered, `includes_module "abc"` returns true even though `"abc"` is not
hierarchically under `"ab"`. -/
theorem includes_module_textual :
    (StdErrLog.new.register_module "ab").includes_module "abc" = true := by
  decide

/-- Claim C5: the verbosity setter maps counts 0, 1, 2, 3 to Error, Warn,
Info, Debug and clamps every count ≥ 4 to Trace; and for any chain of
builder calls whose last verbosity call carries count `n`, if the resulting
quiet flag is false then the effective threshold is exactly the mapped
value, independent of the order and number of the other setter calls. -/
theorem verbosity_table_and_order_independence :
    (∀ cfg : StdErrLog,
      (cfg.set_verbosity 0).verbosity = .Error
      ∧ (cfg.set_verbosity 1).verbosity = .Warn
      ∧ (cfg.set_verbosity 2).verbosity = .Info
      ∧ (cfg.set_verbosity 3).verbosity = .Debug
      ∧ ∀ n, 4 ≤ n → (cfg.set_verbosity n).verbosity = .Trace)
    ∧ (∀ (cfg : StdErrLog) (pre suf : List ConfigCall) (n : Nat),
      (∀ m, ConfigCall.verbosityCall m ∉ suf) →
      (applyCalls cfg (pre ++ ConfigCall.verbosityCall n :: suf)).quiet = false →
      (applyCalls cfg (pre ++ ConfigCall.verbosityCall n :: suf)).log_level_filter
        = verbosityToFilter n) := by
  constructor
  · intro cfg
    exact ⟨rfl, rfl, rfl, rfl, fun n h => by
      simp [StdErrLog.set_verbosity, verbosityToFilter_of_four_le n h]⟩
  · intro cfg pre suf n hsuf hquiet
    have hsplit : applyCalls cfg (pre ++ ConfigCall.verbosityCall n :: suf)
        = applyCalls (applyCall (applyCalls cfg pre) (.verbosityCall n)) suf := by
      rw [applyCalls_append]; rfl
    rw [hsplit] at hquiet ⊢
    have hv : (applyCalls (applyCall (applyCalls cfg pre) (.verbosityCall n)) suf).verbosity
        = verbosityToFilter n := by
      rw [applyCalls_verbosity_of_no_verbosity suf _ hsuf]; rfl
    simp [StdErrLog.log_level_filter, hquiet, hv]

/-- Witness for C5: a concrete chain `quiet false; verbosity 5; verbosity 2;
timestamp Second; module "app"` yields effective threshold Info. -/
theorem verbosity_order_independence_witness :
    (∀ m, ConfigCall.verbosityCall m
        ∉ [ConfigCall.timestampCall .Second, ConfigCall.moduleCall "app"])
    ∧ (applyCalls StdErrLog.new
        ([ConfigCall.quietCall false, ConfigCall.verbosityCall 5]
          ++ ConfigCall.verbosityCall 2
            :: [ConfigCall.timestampCall .Second, ConfigCall.moduleCall "app"])).quiet
        = false
    ∧ (applyCalls StdErrLog.new
        ([ConfigCall.quietCall false, ConfigCall.verbosityCall 5]
          ++ ConfigCall.verbosityCall 2
            :: [ConfigCall.timestampCall .Second, ConfigCall.moduleCall "app"])).log_level_filter
        = verbosityToFilter 2 :=
  ⟨fun m => by simp, rfl,
    verbosity_table_and_order_independence.2 StdErrLog.new
      [ConfigCall.quietCall false, ConfigCall.verbosityCall 5]
      [ConfigCall.timestampCall .Second, ConfigCall.moduleCall "app"] 2
      (fun m => by simp) rfl⟩

/-- Claim C6: when quiet is true the effective threshold is Off and `enabled`
is false at every level (Error included) whatever the configured verbosity;
when quiet is false the effective threshold is the configured verbosity. -/
theorem quiet_overrides (cfg : StdErrLog) :
    (cfg.quiet = true →
      cfg.log_level_filter = .Off ∧ ∀ level, cfg.enabled level = false)
    ∧ (cfg.quiet = false → cfg.log_level_filter = cfg.verbosity) := by
  constructor
  · intro h
    have hf : cfg.log_level_filter = .Off := by
      simp [StdErrLog.log_level_filter, h]
    refine ⟨hf, fun level => ?_⟩
    simp only [StdErrLog.enabled, hf]
    cases level <;> rfl
  · intro h
    simp [StdErrLog.log_level_filter, h]

/-- Witness for C6: a quiet sink configured at maximal verbosity has
threshold Off and rejects Error; a non-quiet sink's threshold is its
verbosity. -/
theorem quiet_overrides_witness :
    (((StdErrLog.new.set_verbosity 5).set_quiet true).log_level_filter = .Off
      ∧ ((StdErrLog.new.set_verbosity 5).set_quiet true).enabled .Error = false)
    ∧ StdErrLog.new.log_level_filter = StdErrLog.new.verbosity :=
  ⟨⟨((quiet_overrides ((StdErrLog.new.set_verbosity 5).set_quiet true)).1 rfl).1,
    ((quiet_overrides ((StdErrLog.new.set_verbosity 5).set_quiet true)).1 rfl).2 .Error⟩,
    (quiet_overrides StdErrLog.new).2 rfl⟩

/-- Claim C7: `log` re-checks enablement and then module inclusion; when
either check fails it writes nothing (empty output list) and raises no
error (`log` is total). -/
theorem log_silent_drop (cfg : StdErrLog) (now : String) (level : LogLevel)
    (module_path args : String) :
    (cfg.enabled level = false → cfg.log now level module_path args = [])
    ∧ (cfg.includes_module module_path = false →
      cfg.log now level module_path args = []) := by
  constructor
  · intro h
    simp [StdErrLog.log, h]
  · intro h
    by_cases he : cfg.enabled level = true
    · simp [StdErrLog.log, he, h]
    · simp [StdErrLog.log, he]

/-- Witness for C7: the default sink (threshold Error) drops an Info record,
and a sink restricted to `"app::net"` drops a record from `"other"`. -/
theorem log_silent_drop_witness :
    StdErrLog.new.enabled .Info = false
    ∧ StdErrLog.new.log "t" .Info "m" "hello" = []
    ∧ ((StdErrLog.new.set_verbosity 5).register_module "app::net").includes_module "other"
        = false
    ∧ ((StdErrLog.new.set_verbosity 5).register_module "app::net").log "t" .Trace "other" "x"
        = [] :=
  ⟨rfl,
    (log_silent_drop StdErrLog.new "t" .Info "m" "hello").1 rfl,
    by decide,
    (log_silent_drop ((StdErrLog.new.set_verbosity 5).register_module "app::net")
      "t" .Trace "other" "x").2 (by decide)⟩

/-- Claim C8: for an enabled and included record exactly one line
`<LEVEL> - <message>` is emitted, preceded by `<timestamp> - ` exactly when
the timestamp mode is Second; with mode Off neither the timestamp nor its
trailing separator appears. -/
theorem log_line_format (cfg : StdErrLog) (now : String) (level : LogLevel)
    (module_path args : String) :
    cfg.enabled level = true → cfg.includes_module module_path = true →
    (cfg.timestamp = .Second →
      cfg.log now level module_path args = [now ++ " - " ++ level.name ++ " - " ++ args])
    ∧ (cfg.timestamp = .Off →
      cfg.log now level module_path args = [level.name ++ " - " ++ args]) := by
  intro he hi
  constructor
  · intro ht
    simp [StdErrLog.log, he, hi, ht, String.append_assoc]
  · intro ht
    simp [StdErrLog.log, he, hi, ht]

/-- Witness for C8: a verbosity-2 sink with no module restriction emits
`INFO - starting up` with timestamp off, and the timestamped line with mode
Second. -/
theorem log_line_format_witness :
    (StdErrLog.new.set_verbosity 2).enabled .Info = true
    ∧ (StdErrLog.new.set_verbosity 2).includes_module "app" = true
    ∧ (StdErrLog.new.set_verbosity 2).log "t" .Info "app" "starting up"
        = ["INFO - starting up"]
    ∧ ((StdErrLog.new.set_verbosity 2).set_timestamp .Second).log "t" .Info "app" "starting up"
        = ["t - INFO - starting up"] :=
  ⟨rfl, rfl,
    (log_line_format (StdErrLog.new.set_verbosity 2) "t" .Info "app" "starting up"
      rfl rfl).2 rfl,
    (log_line_format ((StdErrLog.new.set_verbosity 2).set_timestamp .Second)
      "t" .Info "app" "starting up" rfl rfl).1 rfl⟩

/-- Claim C9: on a fresh facade state `init` installs a clone of the current
configuration and sets the global gate to the effective threshold (Off when
quiet, else the configured verbosity); when a logger is already installed,
`init` returns the already-initialized error and the facade state — the
installed logger included — is unchanged. -/
theorem init_install_semantics (cfg : StdErrLog) (st : GlobalLoggerState) :
    cfg.log_level_filter = (if cfg.quiet then .Off else cfg.verbosity)
    ∧ (st.logger = none →
      cfg.init st
        = ({ logger := some cfg.clone, max_log_level := cfg.log_level_filter }, .ok ()))
    ∧ (∀ l, st.logger = some l →
      cfg.init st = (st, .error .AlreadyInitialized)) := by
  refine ⟨rfl, ?_, ?_⟩
  · intro h
    simp [StdErrLog.init, set_logger, h]
  · intro l h
    simp [StdErrLog.init, set_logger, h]

/-- Witness for C9: installing into the fresh state succeeds and records the
clone and gate; a second install returns the already-initialized error and
leaves the state untouched. -/
theorem init_install_semantics_witness :
    StdErrLog.new.init { logger := none, max_log_level := .Off }
        = ({ logger := some StdErrLog.new.clone,
             max_log_level := StdErrLog.new.log_level_filter }, .ok ())
    ∧ (StdErrLog.new.set_verbosity 3).init
          { logger := some StdErrLog.new.clone, max_log_level := .Error }
        = ({ logger := some StdErrLog.new.clone, max_log_level := .Error },
           .error .AlreadyInitialized) :=
  ⟨(init_install_semantics StdErrLog.new
      { logger := none, max_log_level := .Off }).2.1 rfl,
    (init_install_semantics (StdErrLog.new.set_verbosity 3)
      { logger := some StdErrLog.new.clone, max_log_level := .Error }).2.2
      StdErrLog.new.clone rfl⟩

/-- Counterexample to claim C10 as stated: the empty string is registered
(together with `"b"`), yet `includes_module "c"` is false — the range
search returns the greatest member at or before `"c"`, namely `"b"`, and
`"c"` does not start with `"b"`, so the registered `""` is never
consulted. -/
theorem includes_module_empty_string_counterexample :
    ((StdErrLog.new.register_module "").register_module "b").includes_module "c"
      = false := by
  decide

/-- Claim C10 (amended): when the empty string is the ONLY registered
module, `includes_module` returns true for every module path; and with an
empty registered set, `includes_module ""` on the empty path itself is
true. -/
theorem includes_module_empty_string_amended :
    (∀ (cfg : StdErrLog) (p : String),
      cfg.modules = [""] → cfg.includes_module p = true)
    ∧ (∀ cfg : StdErrLog, cfg.modules = [] → cfg.includes_module "" = true) := by
  constructor
  · intro cfg p h
    simp [StdErrLog.includes_module, h, List.filter, strLe_empty_left, maxStr?,
      starts_with_empty]
  · intro cfg h
    exact includes_module_nil cfg "" h

/-- Witness for the amended C10 at concrete sinks and paths. -/
theorem includes_module_empty_string_amended_witness :
    (StdErrLog.new.register_module "").modules = [""]
    ∧ (StdErrLog.new.register_module "").includes_module "anything::at::all" = true
    ∧ StdErrLog.new.modules = []
    ∧ StdErrLog.new.includes_module "" = true :=
  ⟨rfl,
    includes_module_empty_string_amended.1 (StdErrLog.new.register_module "")
      "anything::at::all" rfl,
    rfl,
    includes_module_empty_string_amended.2 StdErrLog.new rfl⟩

end Stderrlog
